import Mathlib

/-!
Verification of the LLM-CRM-Agent repository (Python) against its
natural-language specification.

Python strings are embedded as `List Char`, Python `None`-able values as
`Option`, Python exceptions as `Except PyErr` (a raised exception) or as
the value a `try/except` turns them into.  LLM calls (`self.llm.invoke`)
and `json.loads` are abstracted as oracles passed to the functions that
use them, since their behaviour is external to the repository.
-/

/-- A Python string, embedded as its list of characters. -/
abbrev PyStr := List Char

/-- A Python exception value; only its string form (`str(e)`) is observable. -/
structure PyErr where
  msg : PyStr
deriving DecidableEq, Repr

/-- The character `U+007B` (left curly brace). -/
def lbrace : Char := Char.ofNat 123

/-- The character `U+007D` (right curly brace). -/
def rbrace : Char := Char.ofNat 125

/-- Python `content.find(pat)`: index of the first occurrence of `pat` in
`l`, as `some i`, or `none` when `pat` does not occur (Python's `-1`). -/
def findIdx (pat : PyStr) (l : PyStr) : Option Nat :=
  if pat.isPrefixOf l then some 0
  else
    match l with
    | [] => none
    | _ :: rest => (findIdx pat rest).map (· + 1)

/-- Python `content.rfind(c)` for a single character: index of the last
occurrence of `c`, as `some i`, or `none` when absent (Python's `-1`). -/
def rfindIdx (c : Char) : PyStr → Option Nat
  | [] => none
  | x :: rest =>
    match rfindIdx c rest with
    | some i => some (i + 1)
    | none => if x = c then some 0 else none

/-- Python slice `l[a:b]` (for `0 ≤ a`, `0 ≤ b`). -/
def pySlice (l : PyStr) (a b : Nat) : PyStr :=
  (l.drop a).take (b - a)

/-- Python `in` on strings: substring containment. -/
def containsSub (pat l : PyStr) : Bool :=
  (findIdx pat l).isSome

/-- `re.search(r'```json\n(.*?)\n```', content, re.DOTALL)`: the group of
the first match — the text between the first `` ```json `` marker and the
first closing `` ``` `` after it — or `none` when there is no match. -/
def fencedBlock (content : PyStr) : Option PyStr :=
  match findIdx ("```json\n".data) content with
  | none => none
  | some i =>
    let after := content.drop (i + 8)
    match findIdx ("\n```".data) after with
    | none => none
    | some j => some (after.take j)

/-- The JSON-extraction logic shared verbatim by
`TicketRouter._run_categorization`, `TicketRouter._run_routing` and
`CRMEntryGenerator._run` (the inner `try` block): try `json.loads` on the
whole text; on failure look for a ```` ```json ```` fenced block and parse
its contents; otherwise slice from the first `{` to the last `}` and parse
that.  `parse` abstracts `json.loads` (`none` = `JSONDecodeError`);
a `none` result means the inner `except` branch runs (fallback payload). -/
def extract_json {J : Type} (parse : PyStr → Option J) (content : PyStr) :
    Option J :=
  match parse content with
  | some result => some result
  | none =>
    match fencedBlock content with
    | some json_str => parse json_str
    | none =>
      match findIdx [lbrace] content, rfindIdx rbrace content with
      | some start_idx, some end_idx =>
        parse (pySlice content start_idx (end_idx + 1))
      | some _, none => none
      | none, _ => none

/-- Written from the specification's words, for comparison with
`extract_json`: (1) if the whole text parses, return that parse; (2) else
if the text contains a ```` ```json ```` fenced block, return the parse of
the first block's contents; (3) else if the text contains a `{` and a `}`
at or after it, parse the substring from the first `{` to the last `}`;
and when every stage fails, the fallback (`none`) is returned. -/
def extract_json_spec {J : Type} (parse : PyStr → Option J) (content : PyStr) :
    Option J :=
  match parse content with
  | some result => some result
  | none =>
    match fencedBlock content with
    | some json_str => parse json_str
    | none =>
      match findIdx [lbrace] content, rfindIdx rbrace content with
      | some s, some e =>
        if s ≤ e then parse (pySlice content s (e + 1)) else none
      | some _, none => none
      | none, _ => none

/-- Python dictionary lookup `d.get(k)` on a string-valued dict, embedded
as an association list (first binding wins). -/
def dictGet {α : Type} (k : String) : List (String × α) → Option α
  | [] => none
  | (k', v) :: rest => if k = k' then some v else dictGet k rest

/-- Python `x or default` on an `Optional[str]`: `None` and the empty
string are falsy, so both yield the default. -/
def pyOr (x : Option PyStr) (default : PyStr) : PyStr :=
  match x with
  | none => default
  | some s => if s.isEmpty then default else s

/-- Result of one of the LLM-backed `_run*` tool methods: either the
parsed JSON object (abstract, since the LLM output is external), or the
literal dictionary built by one of the `except` branches. -/
inductive RunResult (J : Type) where
  | parsed (j : J)
  | errDict (d : List (String × PyStr))

/-- `TicketRouter._run_categorization`.  The LLM call is abstracted as
`llm` (`Except.error e` = the call raised `e`; `Except.ok content` = the
response's text content); `parse` abstracts `json.loads`.  The outer
`except` returns a dict with an `error` field; the inner `except` (JSON
parsing failure, i.e. `extract_json` returns `none`) returns a dict with
`raw_response` and `error` fields. -/
def run_categorization {J : Type} (parse : PyStr → Option J)
    (title : PyStr) (customer_id priority category : Option PyStr)
    (llm : Except PyErr PyStr) : RunResult J :=
  match llm with
  | .error e =>
    .errDict [("title", title),
              ("category", pyOr category "Unknown".data),
              ("priority", pyOr priority "Medium".data),
              ("department", "Support".data),
              ("error", "Error categorizing ticket: ".data ++ e.msg)]
  | .ok content =>
    match extract_json parse content with
    | some result => .parsed result
    | none =>
      .errDict [("title", title),
                ("category", pyOr category "Unknown".data),
                ("priority", pyOr priority "Medium".data),
                ("department", "Support".data),
                ("raw_response", content),
                ("error", "Failed to parse structured categorization".data)]

/-- `TicketRouter._run_routing`, with the same abstractions as
`run_categorization`. -/
def run_routing {J : Type} (parse : PyStr → Option J)
    (llm : Except PyErr PyStr) : RunResult J :=
  match llm with
  | .error e =>
    .errDict [("department", "Support".data),
              ("priority", "Medium".data),
              ("category", "General".data),
              ("error", "Error routing query: ".data ++ e.msg)]
  | .ok content =>
    match extract_json parse content with
    | some result => .parsed result
    | none =>
      .errDict [("department", "Support".data),
                ("priority", "Medium".data),
                ("category", "General".data),
                ("raw_response", content),
                ("error", "Failed to parse structured routing".data)]

/-- `CRMEntryGenerator._run`, with the same abstractions as
`run_categorization`. -/
def run_crm_entry {J : Type} (parse : PyStr → Option J)
    (customer_name : PyStr) (llm : Except PyErr PyStr) : RunResult J :=
  match llm with
  | .error e =>
    .errDict [("customer_name", customer_name),
              ("error", "Error generating CRM entry: ".data ++ e.msg)]
  | .ok content =>
    match extract_json parse content with
    | some crm_entry => .parsed crm_entry
    | none =>
      .errDict [("customer_name", customer_name),
                ("raw_entry", content),
                ("error", "Failed to parse structured CRM entry".data)]

/-- `EmailSummarizer._run`: returns the LLM response content, or on any
exception the string `Failed to summarize email: Error summarizing email:
str(e)`. -/
def run_summarizer (llm : Except PyErr PyStr) : PyStr :=
  match llm with
  | .ok content => content
  | .error e =>
    "Failed to summarize email: ".data ++
      ("Error summarizing email: ".data ++ e.msg)

/-- Python `str.lower()`, restricted to the ASCII letters that occur in
this repository's data. -/
def pyLower (l : PyStr) : PyStr :=
  l.map fun c => if 'A' ≤ c ∧ c ≤ 'Z' then Char.ofNat (c.toNat + 32) else c

/-- Python `str.isspace` characters relevant to `str.strip()`. -/
def pyIsSpace (c : Char) : Bool :=
  c = ' ' || c = '\t' || c = '\n' || c = '\x0d' || c = '\x0b' || c = '\x0c'

/-- Python `str.strip()`. -/
def pyStrip (l : PyStr) : PyStr :=
  ((l.dropWhile pyIsSpace).reverse.dropWhile pyIsSpace).reverse

/-- `TicketRouter.is_support_request`: asks the LLM whether the message
is a support request; answers `true` when the (stripped, lowercased)
response contains `yes` and its first three characters do not contain
`no`; on any exception it defaults to `true`. -/
def is_support_request (llm : Except PyErr PyStr) : Bool :=
  match llm with
  | .error _ => true
  | .ok response =>
    let content := pyLower (pyStrip response)
    containsSub "yes".data content && !(containsSub "no".data (content.take 3))

/-- One fetched email, as produced by
`EmailService.get_unprocessed_emails`. -/
structure Email where
  id : PyStr
  subject : PyStr
  body : PyStr
  sender : PyStr
  date : PyStr
  attachments : Option (List PyStr)
  customer_id : Option PyStr
deriving DecidableEq, Repr

/-- Ticket data as consumed by `TicketService.create_ticket` from the
categorization result (`ticket_data["category"]`, `ticket_data["priority"]`). -/
structure TicketData where
  category : PyStr
  priority : PyStr
deriving DecidableEq, Repr

/-- An observable step of `CustomerServiceAgent.process_email_batch`'s
loop body, tagged with the id of the email being processed. -/
inductive Event where
  | summarizeEmail (id : PyStr)
  | detectSupport (id : PyStr)
  | categorizeTicket (id : PyStr)
  | createTicket (id : PyStr)
  | createCRMEntry (id : PyStr)
  | submitCRMEntry (id : PyStr)
  | markProcessed (id : PyStr)
deriving DecidableEq, Repr

/-- The LLM-backed tools and mocked services the batch loop calls, each
abstracted as an oracle that may raise (`Except.error`).  This models
that any individual call inside the loop body's `try` block can throw. -/
structure Oracles where
  summarize : Email → Except PyErr PyStr
  detect : Email → Except PyErr Bool
  categorize : Email → Except PyErr TicketData
  create_ticket : Email → TicketData → Except PyErr Unit
  create_crm : Email → PyStr → Except PyErr PyStr
  submit_crm : PyStr → Except PyErr (Option PyStr)
  mark_processed : PyStr → Except PyErr Unit

/-- The tail of the loop body shared by both branches of the
support-request conditional: create the CRM entry, submit it, and mark
the email as processed.  Returns the events that happened, and the
exception that escaped the body (if any). -/
def process_tail (o : Oracles) (e : Email) (summary : PyStr) :
    List Event × Option PyErr :=
  match o.create_crm e summary with
  | .error err => ([.createCRMEntry e.id], some err)
  | .ok crm_entry =>
    match o.submit_crm crm_entry with
    | .error err => ([.createCRMEntry e.id, .submitCRMEntry e.id], some err)
    | .ok _ =>
      match o.mark_processed e.id with
      | .error err =>
        ([.createCRMEntry e.id, .submitCRMEntry e.id, .markProcessed e.id],
         some err)
      | .ok _ =>
        ([.createCRMEntry e.id, .submitCRMEntry e.id, .markProcessed e.id],
         none)

/-- The body of `process_email_batch`'s `for` loop for one email
(the contents of its `try` block): summarize, detect whether it is a
support request, if so categorize and submit a ticket, then create and
submit a CRM entry and mark the email processed.  Returns the events in
the order they happened and the exception that escaped the body, if any
(which the loop's `except` swallows). -/
def process_one (o : Oracles) (e : Email) : List Event × Option PyErr :=
  match o.summarize e with
  | .error err => ([.summarizeEmail e.id], some err)
  | .ok summary =>
    match o.detect e with
    | .error err => ([.summarizeEmail e.id, .detectSupport e.id], some err)
    | .ok isSupport =>
      if isSupport then
        match o.categorize e with
        | .error err =>
          ([.summarizeEmail e.id, .detectSupport e.id,
            .categorizeTicket e.id], some err)
        | .ok ticket_data =>
          match o.create_ticket e ticket_data with
          | .error err =>
            ([.summarizeEmail e.id, .detectSupport e.id,
              .categorizeTicket e.id, .createTicket e.id], some err)
          | .ok _ =>
            let t := process_tail o e summary
            ([.summarizeEmail e.id, .detectSupport e.id,
              .categorizeTicket e.id, .createTicket e.id] ++ t.1, t.2)
      else
        let t := process_tail o e summary
        ([.summarizeEmail e.id, .detectSupport e.id] ++ t.1, t.2)

/-- `CustomerServiceAgent.process_email_batch`: the `for` loop over the
fetched emails; each iteration's exception is caught and logged, and the
loop continues with the next email. -/
def process_email_batch (o : Oracles) : List Email →
    List (List Event × Option PyErr)
  | [] => []
  | e :: rest => process_one o e :: process_email_batch o rest

/-- The full sequence of loop-body steps for one email, in program
order. -/
def fullEventSeq (e : Email) : List Event :=
  [.summarizeEmail e.id, .detectSupport e.id, .categorizeTicket e.id,
   .createTicket e.id, .createCRMEntry e.id, .submitCRMEntry e.id,
   .markProcessed e.id]

/-- The loop-body steps for one email that is not a support request. -/
def nonSupportEventSeq (e : Email) : List Event :=
  [.summarizeEmail e.id, .detectSupport e.id, .createCRMEntry e.id,
   .submitCRMEntry e.id, .markProcessed e.id]

/-- Role of a chat message; `_save_memory` serializes exactly the
`HumanMessage` / `AIMessage` / `SystemMessage` classes, which are the
only message classes this repository ever stores. -/
inductive MsgType where
  | human
  | ai
  | system
deriving DecidableEq, Repr

/-- A message in `chat_memory.messages`, with its langchain
`additional_kwargs` dict. -/
structure Message where
  mtype : MsgType
  content : PyStr
  additional_kwargs : List (String × PyStr)
deriving DecidableEq, Repr

/-- A per-customer context blob. -/
abbrev Ctx := List (String × PyStr)

/-- Python `d[k] = v` on a dict embedded as an association list:
replace the first binding of `k` in place, or append a new one. -/
def dictSet {α : Type} (d : List (String × α)) (k : String) (v : α) :
    List (String × α) :=
  match d with
  | [] => [(k, v)]
  | (k', v') :: rest =>
    if k = k' then (k, v) :: rest else (k', v') :: dictSet rest k v

/-- Python `d.update(d2)` on dicts embedded as association lists. -/
def pyDictUpdate (d d2 : Ctx) : Ctx :=
  d2.foldl (fun acc kv => dictSet acc kv.1 kv.2) d

/-- The JSON document `_save_memory` writes to `agent_memory.json`:
the customer contexts, the role-tagged transcript, and a timestamp. -/
structure FileData where
  customer_contexts : List (String × Ctx)
  messages : List (String × PyStr)
  last_updated : PyStr
deriving DecidableEq, Repr

/-- The in-memory state of `AgentMemory` together with the contents of
`agent_memory.json` (`none` = the file does not exist). -/
structure MemoryState where
  messages : List Message
  customer_contexts : List (String × Ctx)
  file : Option FileData
deriving DecidableEq, Repr

/-- The serializable form of the transcript built by `_save_memory`:
each message becomes a `type`/`content` record. -/
def serializeMessages (msgs : List Message) : List (String × PyStr) :=
  msgs.map fun m =>
    match m.mtype with
    | .human => ("human", m.content)
    | .ai => ("ai", m.content)
    | .system => ("system", m.content)

/-- `AgentMemory._save_memory`: serialize the whole in-memory state and
write it to `agent_memory.json` (`now` is `datetime.now().isoformat()`). -/
def save_memory (now : PyStr) (st : MemoryState) : MemoryState :=
  { st with
    file := some ⟨st.customer_contexts, serializeMessages st.messages, now⟩ }

/-- `AgentMemory.save_context`.  The `super().save_context` call
(langchain's `ConversationBufferMemory`) appends the turn's human input
message and AI output message to `chat_memory`; then `_save_memory`
persists the whole state. -/
def save_context (now : PyStr) (st : MemoryState)
    (inputStr outputStr : PyStr) : MemoryState :=
  save_memory now
    { st with
      messages := st.messages ++
        [⟨.human, inputStr, []⟩, ⟨.ai, outputStr, []⟩] }

/-- `AgentMemory.clear`.  The `super().clear()` call empties
`chat_memory.messages` (customer contexts are untouched); then
`_save_memory` persists the (now empty) transcript. -/
def clear_memory (now : PyStr) (st : MemoryState) : MemoryState :=
  save_memory now { st with messages := [] }

/-- `AgentMemory.update_customer_context`: create the customer's blob if
absent, merge in `context_data`, stamp `last_updated`, and persist. -/
def update_customer_context (now : PyStr) (st : MemoryState)
    (customer_id : String) (context_data : Ctx) : MemoryState :=
  let base :=
    match dictGet customer_id st.customer_contexts with
    | some c => c
    | none => []
  let updated := dictSet (pyDictUpdate base context_data) "last_updated" now
  save_memory now
    { st with customer_contexts := dictSet st.customer_contexts customer_id updated }

/-- The transcript currently persisted in `agent_memory.json`. -/
def persistedMessages (st : MemoryState) : List (String × PyStr) :=
  match st.file with
  | some f => f.messages
  | none => []

/-- Python `l[-k:]` for `k ≥ 0`: the whole list when `k = 0` (since
`-0 = 0`), otherwise the last `k` elements. -/
def pySliceLast {α : Type} (k : Nat) (l : List α) : List α :=
  if k = 0 then l else l.drop (l.length - k)

/-- `AgentMemory.get_relevant_history`: with a falsy `customer_id`
(`None` or the empty string) return the most recent `max_messages`
messages; otherwise filter the transcript to messages whose
`additional_kwargs["customer_id"]` equals the given id, and return the
most recent `max_messages` of those. -/
def get_relevant_history (st : MemoryState) (customer_id : Option PyStr)
    (max_messages : Nat) : List Message :=
  let all_messages := st.messages
  match customer_id with
  | none => pySliceLast max_messages all_messages
  | some cid =>
    if cid.isEmpty then pySliceLast max_messages all_messages
    else
      pySliceLast max_messages
        (all_messages.filter fun m =>
          decide (dictGet "customer_id" m.additional_kwargs = some cid))

/-- A customer record as returned by the mocked `CRMService.get_customer`. -/
structure CustomerRecord where
  id : PyStr
  name : PyStr
  email : PyStr
  phone : PyStr
  company : PyStr
  status : PyStr
  plan : Option PyStr
  created_at : PyStr
  last_contact : PyStr
  notes : PyStr
deriving DecidableEq, Repr

/-- `CRMService.get_customer`: canned records for four fixed ids, `None`
otherwise (the `asyncio.sleep` delay is not modelled). -/
def get_customer (customer_id : PyStr) : Option CustomerRecord :=
  if customer_id = "CUST12345".data then
    some ⟨"CUST12345".data, "John Smith".data, "john.smith@example.com".data,
          "555-123-4567".data, "ABC Corp".data, "Active".data,
          some "Enterprise".data, "2022-01-15T10:30:00Z".data,
          "2023-09-28T14:45:00Z".data,
          "Frequent support requests about login issues".data⟩
  else if customer_id = "CUST67890".data then
    some ⟨"CUST67890".data, "Sarah Johnson".data,
          "sarah.johnson@example.com".data, "555-987-6543".data,
          "XYZ Inc".data, "Active".data, some "Professional".data,
          "2022-03-22T09:15:00Z".data, "2023-10-10T11:20:00Z".data,
          "Recently upgraded from Basic plan".data⟩
  else if customer_id = "CUST24680".data then
    some ⟨"CUST24680".data, "Michael Chen".data,
          "michael.chen@example.com".data, "555-246-8024".data,
          "Tech Solutions LLC".data, "Active".data, some "Professional".data,
          "2022-05-10T14:00:00Z".data, "2023-10-05T16:30:00Z".data,
          "Interested in API integration features".data⟩
  else if customer_id = "CUST13579".data then
    some ⟨"CUST13579".data, "David Wilson".data,
          "david.wilson@acmecorp.com".data, "555-135-7913".data,
          "Acme Corporation".data, "Prospect".data, none,
          "2023-09-15T10:00:00Z".data, "2023-10-08T15:45:00Z".data,
          "In sales pipeline, demo provided on Oct 5".data⟩
  else
    none

/-- A catalog entry of the mocked `CRMService.search_customers`. -/
structure SearchRecord where
  id : PyStr
  name : PyStr
  email : PyStr
  company : PyStr
deriving DecidableEq, Repr

/-- The fixed four-entry catalog `mock_customers` in
`CRMService.search_customers`. -/
def mock_customers : List SearchRecord :=
  [⟨"CUST12345".data, "John Smith".data, "john.smith@example.com".data,
    "ABC Corp".data⟩,
   ⟨"CUST67890".data, "Sarah Johnson".data, "sarah.johnson@example.com".data,
    "XYZ Inc".data⟩,
   ⟨"CUST24680".data, "Michael Chen".data, "michael.chen@example.com".data,
    "Tech Solutions LLC".data⟩,
   ⟨"CUST13579".data, "David Wilson".data, "david.wilson@acmecorp.com".data,
    "Acme Corporation".data⟩]

/-- The match test of `CRMService.search_customers`: the lowercased
query occurs in the lowercased name, email, or company. -/
def searchMatches (q : PyStr) (c : SearchRecord) : Bool :=
  containsSub (pyLower q) (pyLower c.name) ||
  containsSub (pyLower q) (pyLower c.email) ||
  containsSub (pyLower q) (pyLower c.company)

/-- `CRMService.search_customers`: keep the catalog entries (in catalog
order) whose name, email, or company contains the lowercased query. -/
def search_customers (query : PyStr) : List SearchRecord :=
  mock_customers.filter (searchMatches query)

/-- A sample email, used to evaluate the batch-processing theorems on a
concrete input. -/
def sampleEmail : Email :=
  ⟨"email_0".data, "Issue with login".data, "I cannot log in".data,
   "john.smith@example.com".data, "2023-10-15T10:00:00".data, some [],
   some "CUST12345".data⟩

/-- Oracles on which every call succeeds, used to evaluate the
batch-processing theorems on a concrete input. -/
def happyOracles : Oracles :=
  ⟨fun _ => .ok "summary".data,
   fun _ => .ok true,
   fun _ => .ok ⟨"Technical Issue".data, "High".data⟩,
   fun _ _ => .ok (),
   fun _ _ => .ok "entry".data,
   fun _ => .ok (some "ENTRY_1".data),
   fun _ => .ok ()⟩

/-- A memory state holding one human message with no
`additional_kwargs`, used as a concrete input for the memory theorems. -/
def sampleMemory : MemoryState :=
  ⟨[⟨.human, "hi".data, []⟩], [], none⟩

/-- `sampleMemory` after one `_save_memory`, so that its file is in sync
with its in-memory transcript. -/
def syncedMemory : MemoryState := save_memory "t0".data sampleMemory

/-- The file contents of `syncedMemory`. -/
def syncedFile : FileData := ⟨[], [("human", "hi".data)], "t0".data⟩

theorem pySlice_eq_nil (l : PyStr) (a b : Nat) (h : b ≤ a) :
    pySlice l a b = [] := by
  unfold pySlice
  rw [Nat.sub_eq_zero_of_le h, List.take_zero]

theorem extract_json_eq_spec {J : Type} (parse : PyStr → Option J)
    (hp : parse [] = none) (content : PyStr) :
    extract_json parse content = extract_json_spec parse content := by
  unfold extract_json extract_json_spec
  cases parse content with
  | some r => rfl
  | none =>
    cases fencedBlock content with
    | some b => rfl
    | none =>
      cases hs : findIdx [lbrace] content with
      | none => rfl
      | some s =>
        cases he : rfindIdx rbrace content with
        | none => rfl
        | some e =>
          by_cases hle : s ≤ e
          · simp [hle]
          · have : e + 1 ≤ s := Nat.succ_le_of_lt (Nat.lt_of_not_le hle)
            simp [hle, pySlice_eq_nil content s (e + 1) this, hp]

theorem process_email_batch_eq_map (o : Oracles) (emails : List Email) :
    process_email_batch o emails = emails.map (process_one o) := by
  induction emails with
  | nil => rfl
  | cons e rest ih => simp [process_email_batch, ih]

/-- C9: if the support-request detection LLM call raises any exception,
`TicketRouter.is_support_request` returns `true` — the message is treated
as a support request by default on detection failure. -/
theorem c9_support_detection_defaults_true (e : PyErr) :
    is_support_request (.error e) = true := rfl

/-- C7: the mocked `CRMService.get_customer` returns the fixed canned
record (keyed by the requested id) for each of the four known customer
ids, and `None` for every other id; being a total function of its
argument, it never raises. -/
theorem c7_get_customer_canned (customer_id : PyStr)
    (h : customer_id ∉ ["CUST12345".data, "CUST67890".data,
                        "CUST24680".data, "CUST13579".data]) :
    (∀ cid ∈ (["CUST12345".data, "CUST67890".data, "CUST24680".data,
               "CUST13579".data] : List PyStr),
        ∃ r, get_customer cid = some r ∧ r.id = cid) ∧
    get_customer customer_id = none := by
  constructor
  · intro cid hcid
    simp only [List.mem_cons, List.not_mem_nil, or_false] at hcid
    rcases hcid with rfl | rfl | rfl | rfl
    · exact ⟨_, rfl, rfl⟩
    · exact ⟨_, rfl, rfl⟩
    · exact ⟨_, rfl, rfl⟩
    · exact ⟨_, rfl, rfl⟩
  · simp only [List.mem_cons, List.not_mem_nil, or_false, not_or] at h
    obtain ⟨h1, h2, h3, h4⟩ := h
    simp [get_customer, h1, h2, h3, h4]

theorem c7_get_customer_canned_witness :
    ("CUSTX".data ∉ ["CUST12345".data, "CUST67890".data,
                     "CUST24680".data, "CUST13579".data]) ∧
    ((∀ cid ∈ (["CUST12345".data, "CUST67890".data, "CUST24680".data,
                "CUST13579".data] : List PyStr),
         ∃ r, get_customer cid = some r ∧ r.id = cid) ∧
     get_customer "CUSTX".data = none) :=
  ⟨by decide, c7_get_customer_canned "CUSTX".data (by decide)⟩

/-- C10: `CRMService.search_customers` returns exactly the entries of its
fixed four-entry catalog whose lowercased name, email, or company
contains the lowercased query as a substring; the result is a sublist of
the catalog (so catalog order is preserved and nothing outside the
catalog is returned), and the empty query returns all four entries. -/
theorem c10_search_customers (query : PyStr) (c : SearchRecord) :
    List.Sublist (search_customers query) mock_customers ∧
    (c ∈ search_customers query ↔
      c ∈ mock_customers ∧
        (containsSub (pyLower query) (pyLower c.name) ||
         containsSub (pyLower query) (pyLower c.email) ||
         containsSub (pyLower query) (pyLower c.company)) = true) ∧
    search_customers [] = mock_customers := by
  refine ⟨List.filter_sublist _, ?_, by decide⟩
  simp [search_customers, List.mem_filter, searchMatches]

/-- C1: the JSON extraction used by ticket categorization, query routing,
and CRM entry generation tries, in order: the whole text as JSON, then
the first ```` ```json ```` fenced block, then the first-brace-to-last-brace
slice (`extract_json` agrees with the staged description
`extract_json_spec`, given that `json.loads` rejects the empty string);
and when every stage fails no exception escapes: each of the three tools
returns its fallback error dictionary. -/
theorem c1_json_extraction_stages {J : Type} (parse : PyStr → Option J)
    (hp : parse [] = none) (content title customer_name : PyStr)
    (customer_id priority category : Option PyStr) :
    extract_json parse content = extract_json_spec parse content ∧
    (extract_json parse content = none →
      (∃ d, run_categorization parse title customer_id priority category
          (.ok content) = .errDict d) ∧
      (∃ d, run_routing parse (.ok content) = .errDict d) ∧
      (∃ d, run_crm_entry parse customer_name (.ok content) = .errDict d)) := by
  refine ⟨extract_json_eq_spec parse hp content, fun h => ?_⟩
  exact ⟨⟨[("title", title), ("category", pyOr category "Unknown".data),
           ("priority", pyOr priority "Medium".data),
           ("department", "Support".data), ("raw_response", content),
           ("error", "Failed to parse structured categorization".data)],
          by simp [run_categorization, h]⟩,
         ⟨[("department", "Support".data), ("priority", "Medium".data),
           ("category", "General".data), ("raw_response", content),
           ("error", "Failed to parse structured routing".data)],
          by simp [run_routing, h]⟩,
         ⟨[("customer_name", customer_name), ("raw_entry", content),
           ("error", "Failed to parse structured CRM entry".data)],
          by simp [run_crm_entry, h]⟩⟩

theorem c1_json_extraction_stages_witness :
    ((fun _ : PyStr => (none : Option Unit)) [] = none) ∧
    (extract_json (fun _ : PyStr => (none : Option Unit)) "abc".data =
        extract_json_spec (fun _ : PyStr => (none : Option Unit)) "abc".data ∧
      (extract_json (fun _ : PyStr => (none : Option Unit)) "abc".data = none →
        (∃ d, run_categorization (fun _ : PyStr => (none : Option Unit))
            "t".data none none none (.ok "abc".data) = .errDict d) ∧
        (∃ d, run_routing (fun _ : PyStr => (none : Option Unit))
            (.ok "abc".data) = .errDict d) ∧
        (∃ d, run_crm_entry (fun _ : PyStr => (none : Option Unit))
            "n".data (.ok "abc".data) = .errDict d))) :=
  ⟨rfl, c1_json_extraction_stages (fun _ => none) rfl "abc".data "t".data
      "n".data none none none⟩

/-- C3: at every operation boundary the error policy is catch, log, and
return an error payload: `EmailSummarizer._run` returns a string starting
with `Failed to summarize email` when the LLM call raises, and
`_run_categorization`, `_run_routing`, and `CRMEntryGenerator._run`
return a dictionary containing an `error` key whenever they return their
fallback dictionary — and, being total functions, none of them raises. -/
theorem c3_error_payload_boundaries {J : Type} (parse : PyStr → Option J)
    (e : PyErr) (llm : Except PyErr PyStr) (title customer_name : PyStr)
    (customer_id priority category : Option PyStr)
    (d1 d2 d3 : List (String × PyStr)) :
    (∃ t, "Failed to summarize email".data ++ t = run_summarizer (.error e)) ∧
    (run_categorization parse title customer_id priority category llm =
        .errDict d1 → (dictGet "error" d1).isSome = true) ∧
    (run_routing parse llm = .errDict d2 →
      (dictGet "error" d2).isSome = true) ∧
    (run_crm_entry parse customer_name llm = .errDict d3 →
      (dictGet "error" d3).isSome = true) := by
  refine ⟨⟨": Error summarizing email: ".data ++ e.msg, ?_⟩, ?_, ?_, ?_⟩
  · show _ = "Failed to summarize email: ".data ++
      ("Error summarizing email: ".data ++ e.msg)
    rw [← List.append_assoc, ← List.append_assoc]
    congr 1
  · intro h
    cases llm with
    | error e2 =>
      simp only [run_categorization, RunResult.errDict.injEq] at h
      subst h
      simp [dictGet]
    | ok content =>
      cases hx : extract_json parse content with
      | some j => simp [run_categorization, hx] at h
      | none =>
        simp only [run_categorization, hx, RunResult.errDict.injEq] at h
        subst h
        simp [dictGet]
  · intro h
    cases llm with
    | error e2 =>
      simp only [run_routing, RunResult.errDict.injEq] at h
      subst h
      simp [dictGet]
    | ok content =>
      cases hx : extract_json parse content with
      | some j => simp [run_routing, hx] at h
      | none =>
        simp only [run_routing, hx, RunResult.errDict.injEq] at h
        subst h
        simp [dictGet]
  · intro h
    cases llm with
    | error e2 =>
      simp only [run_crm_entry, RunResult.errDict.injEq] at h
      subst h
      simp [dictGet]
    | ok content =>
      cases hx : extract_json parse content with
      | some j => simp [run_crm_entry, hx] at h
      | none =>
        simp only [run_crm_entry, hx, RunResult.errDict.injEq] at h
        subst h
        simp [dictGet]

theorem c3_error_payload_boundaries_witness :
    (∃ t, "Failed to summarize email".data ++ t =
      run_summarizer (.error ⟨"boom".data⟩)) ∧
    (run_categorization (fun _ : PyStr => (none : Option Unit)) "t".data none
        none none (.error ⟨"boom".data⟩) =
          .errDict [("title", "t".data),
                    ("category", "Unknown".data),
                    ("priority", "Medium".data),
                    ("department", "Support".data),
                    ("error", "Error categorizing ticket: boom".data)] →
      (dictGet "error"
        [("title", "t".data),
         ("category", "Unknown".data),
         ("priority", "Medium".data),
         ("department", "Support".data),
         ("error", "Error categorizing ticket: boom".data)]).isSome = true) ∧
    (run_routing (fun _ : PyStr => (none : Option Unit))
        (.error ⟨"boom".data⟩) =
          .errDict [("department", "Support".data),
                    ("priority", "Medium".data),
                    ("category", "General".data),
                    ("error", "Error routing query: boom".data)] →
      (dictGet "error"
        [("department", "Support".data),
         ("priority", "Medium".data),
         ("category", "General".data),
         ("error", "Error routing query: boom".data)]).isSome = true) ∧
    (run_crm_entry (fun _ : PyStr => (none : Option Unit)) "n".data
        (.error ⟨"boom".data⟩) =
          .errDict [("customer_name", "n".data),
                    ("error", "Error generating CRM entry: boom".data)] →
      (dictGet "error"
        [("customer_name", "n".data),
         ("error", "Error generating CRM entry: boom".data)]).isSome = true) :=
  c3_error_payload_boundaries (fun _ => none) ⟨"boom".data⟩
    (.error ⟨"boom".data⟩) "t".data "n".data none none none _ _ _

/-- C2: an exception raised while processing one email in
`process_email_batch` is caught (it appears as the item's recorded error
instead of escaping) and processing continues: the batch result handles
every email, each email's outcome depends only on that email, and
splitting the list at any email shows the items after it are processed
exactly as they would be on their own. -/
theorem c2_batch_continues_after_failure (o : Oracles)
    (emails pre post : List Email) (e : Email)
    (h : emails = pre ++ e :: post) :
    (process_email_batch o emails).length = emails.length ∧
    process_email_batch o emails = emails.map (process_one o) ∧
    process_email_batch o emails =
      process_email_batch o pre ++
        process_one o e :: process_email_batch o post := by
  subst h
  refine ⟨?_, process_email_batch_eq_map o _, ?_⟩
  · rw [process_email_batch_eq_map]
    exact List.length_map _ _
  · simp [process_email_batch_eq_map, process_email_batch]

theorem c2_batch_continues_after_failure_witness :
    ([sampleEmail] = [] ++ sampleEmail :: []) ∧
    ((process_email_batch happyOracles [sampleEmail]).length =
        ([sampleEmail] : List Email).length ∧
      process_email_batch happyOracles [sampleEmail] =
        ([sampleEmail] : List Email).map (process_one happyOracles) ∧
      process_email_batch happyOracles [sampleEmail] =
        process_email_batch happyOracles [] ++
          process_one happyOracles sampleEmail ::
            process_email_batch happyOracles []) :=
  ⟨rfl, c2_batch_continues_after_failure happyOracles [sampleEmail] [] []
      sampleEmail rfl⟩

/-- C4: every mutation of the persisted state — `save_context`,
`update_customer_context`, and `clear` — writes to `agent_memory.json`
the serialization of the entire resulting state: the full role-tagged
transcript together with all per-customer context blobs (never a partial
update). -/
theorem c4_wholesale_persistence (now : PyStr) (st : MemoryState)
    (inputStr outputStr : PyStr) (customer_id : String)
    (context_data : Ctx) :
    (save_context now st inputStr outputStr).file =
      some ⟨(save_context now st inputStr outputStr).customer_contexts,
            serializeMessages (save_context now st inputStr outputStr).messages,
            now⟩ ∧
    (update_customer_context now st customer_id context_data).file =
      some ⟨(update_customer_context now st customer_id context_data).customer_contexts,
            serializeMessages
              (update_customer_context now st customer_id context_data).messages,
            now⟩ ∧
    (clear_memory now st).file =
      some ⟨(clear_memory now st).customer_contexts,
            serializeMessages (clear_memory now st).messages,
            now⟩ :=
  ⟨rfl, rfl, rfl⟩

/-- C5 is refuted at a concrete input: after persisting one conversation
turn, `clear` writes `agent_memory.json` with an empty transcript, so the
previously persisted human message is removed — the memory file is not
append-only. -/
theorem c5_counterexample_clear_truncates :
    ("human", "hello".data) ∈
      persistedMessages
        (save_context "t1".data ⟨[], [], none⟩ "hello".data "hi".data) ∧
    persistedMessages
      (clear_memory "t2".data
        (save_context "t1".data ⟨[], [], none⟩ "hello".data "hi".data)) =
      [] := by
  decide

/-- C5 (amended): the writes performed by `save_context` and
`update_customer_context` preserve all previously persisted conversation
messages — when the file is in sync with the in-memory transcript,
`save_context` extends the persisted transcript with the new turn and
`update_customer_context` leaves it unchanged — but `clear` truncates the
persisted transcript to empty. -/
theorem c5_amended_append_only_except_clear (now : PyStr) (st : MemoryState)
    (inputStr outputStr : PyStr) (customer_id : String) (context_data : Ctx)
    (f : FileData) (hf : st.file = some f)
    (hsync : f.messages = serializeMessages st.messages) :
    persistedMessages (save_context now st inputStr outputStr) =
      f.messages ++ [("human", inputStr), ("ai", outputStr)] ∧
    persistedMessages
        (update_customer_context now st customer_id context_data) =
      f.messages ∧
    persistedMessages (clear_memory now st) = [] := by
  rw [hsync]
  refine ⟨?_, rfl, rfl⟩
  simp [persistedMessages, save_context, save_memory, serializeMessages]

theorem c5_amended_append_only_except_clear_witness :
    (syncedMemory.file = some syncedFile ∧
      syncedFile.messages = serializeMessages syncedMemory.messages) ∧
    (persistedMessages
        (save_context "t1".data syncedMemory "hello".data "ok".data) =
      syncedFile.messages ++ [("human", "hello".data), ("ai", "ok".data)] ∧
    persistedMessages
        (update_customer_context "t1".data syncedMemory "CUST12345"
          [("plan", "Enterprise".data)]) =
      syncedFile.messages ∧
    persistedMessages (clear_memory "t1".data syncedMemory) = []) :=
  ⟨⟨rfl, rfl⟩,
   c5_amended_append_only_except_clear "t1".data syncedMemory "hello".data
     "ok".data "CUST12345" [("plan", "Enterprise".data)] syncedFile rfl rfl⟩

/-- C8 is refuted at a concrete input: calling `get_relevant_history`
with the given (but empty) customer id `""` returns the most recent
messages unfiltered, so a returned message need not carry that customer
id in its `additional_kwargs`. -/
theorem c8_counterexample_empty_customer_id :
    ¬ (∀ m ∈ get_relevant_history sampleMemory (some []) 1,
        dictGet "customer_id" m.additional_kwargs = some ([] : PyStr)) := by
  decide

/-- C8 (amended): `get_relevant_history` returns at most `max_messages`
messages (for `max_messages > 0`); with no customer id they are exactly
the most recent `max_messages` messages in order; with a non-empty
customer id every returned message carries that id in its
`additional_kwargs`; and an empty customer id behaves as if none was
given. -/
theorem c8_amended_relevant_history (st : MemoryState)
    (customer_id : Option PyStr) (cid : PyStr) (k : Nat) (hk : 0 < k) :
    (get_relevant_history st customer_id k).length ≤ k ∧
    (get_relevant_history st none k =
        st.messages.drop (st.messages.length - k) ∧
      st.messages.take (st.messages.length - k) ++
          get_relevant_history st none k = st.messages) ∧
    (cid.isEmpty = false →
      ∀ m ∈ get_relevant_history st (some cid) k,
        dictGet "customer_id" m.additional_kwargs = some cid) ∧
    get_relevant_history st (some []) k = get_relevant_history st none k := by
  have hk' : k ≠ 0 := Nat.pos_iff_ne_zero.mp hk
  have hlen : ∀ (l : List Message), (pySliceLast k l).length ≤ k := by
    intro l
    simp only [pySliceLast, hk', if_false, List.length_drop]
    omega
  refine ⟨?_, ⟨?_, ?_⟩, ?_, rfl⟩
  · cases customer_id with
    | none => exact hlen _
    | some c =>
      by_cases hc : c.isEmpty
      · simp only [get_relevant_history, hc, if_true]
        exact hlen _
      · simp only [get_relevant_history, hc, if_false]
        exact hlen _
  · simp [get_relevant_history, pySliceLast, hk']
  · simp only [get_relevant_history, pySliceLast, hk', if_false]
    exact List.take_append_drop _ _
  · intro hc m hm
    simp only [get_relevant_history, hc, if_false, pySliceLast, hk'] at hm
    have hm' := List.mem_of_mem_drop hm
    have := (List.mem_filter.mp hm').2
    exact of_decide_eq_true this

theorem c8_amended_relevant_history_witness :
    0 < 1 ∧
    ((get_relevant_history sampleMemory none 1).length ≤ 1 ∧
      (get_relevant_history sampleMemory none 1 =
          sampleMemory.messages.drop (sampleMemory.messages.length - 1) ∧
        sampleMemory.messages.take (sampleMemory.messages.length - 1) ++
            get_relevant_history sampleMemory none 1 =
          sampleMemory.messages) ∧
      (("CUST12345".data : PyStr).isEmpty = false →
        ∀ m ∈ get_relevant_history sampleMemory (some "CUST12345".data) 1,
          dictGet "customer_id" m.additional_kwargs =
            some "CUST12345".data) ∧
      get_relevant_history sampleMemory (some []) 1 =
        get_relevant_history sampleMemory none 1) :=
  ⟨by decide,
   c8_amended_relevant_history sampleMemory none "CUST12345".data 1
     (by decide)⟩

theorem process_tail_cases (o : Oracles) (e : Email) (s : PyStr) :
    (process_tail o e s).1 = [.createCRMEntry e.id] ∨
    (process_tail o e s).1 = [.createCRMEntry e.id, .submitCRMEntry e.id] ∨
    (process_tail o e s).1 =
      [.createCRMEntry e.id, .submitCRMEntry e.id, .markProcessed e.id] := by
  rcases hc : o.create_crm e s with err | en
  · left; simp [process_tail, hc]
  · rcases hsub : o.submit_crm en with err | u
    · right; left; simp [process_tail, hc, hsub]
    · rcases hm : o.mark_processed e.id with err | v
      · right; right; simp [process_tail, hc, hsub, hm]
      · right; right; simp [process_tail, hc, hsub, hm]

theorem process_tail_err_none (o : Oracles) (e : Email) (s : PyStr)
    (h : (process_tail o e s).2 = none) :
    (process_tail o e s).1 =
      [.createCRMEntry e.id, .submitCRMEntry e.id, .markProcessed e.id] := by
  rcases hc : o.create_crm e s with err | en
  · simp [process_tail, hc] at h
  · rcases hsub : o.submit_crm en with err | u
    · simp [process_tail, hc, hsub] at h
    · rcases hm : o.mark_processed e.id with err | v
      · simp [process_tail, hc, hsub, hm] at h
      · simp [process_tail, hc, hsub, hm]

theorem process_tail_sublist (o : Oracles) (e : Email) (s : PyStr) :
    List.Sublist (process_tail o e s).1
      [.createCRMEntry e.id, .submitCRMEntry e.id, .markProcessed e.id] := by
  rcases process_tail_cases o e s with h | h | h
  · rw [h]
    exact List.sublist_append_left [Event.createCRMEntry e.id]
      [Event.submitCRMEntry e.id, Event.markProcessed e.id]
  · rw [h]
    exact List.sublist_append_left
      [Event.createCRMEntry e.id, Event.submitCRMEntry e.id]
      [Event.markProcessed e.id]
  · rw [h]

theorem process_tail_no_ticket_events (o : Oracles) (e : Email) (s : PyStr) :
    Event.categorizeTicket e.id ∉ (process_tail o e s).1 ∧
    Event.createTicket e.id ∉ (process_tail o e s).1 := by
  rcases process_tail_cases o e s with h | h | h <;> rw [h] <;> simp

theorem process_one_head (o : Oracles) (e : Email) :
    (process_one o e).1.head? = some (.summarizeEmail e.id) := by
  rcases hs : o.summarize e with err | s
  · simp [process_one, hs]
  · rcases hd : o.detect e with err | b
    · simp [process_one, hs, hd]
    · cases b
      · simp [process_one, hs, hd]
      · rcases hc : o.categorize e with err | td
        · simp [process_one, hs, hd, hc]
        · rcases ht : o.create_ticket e td with err | u
          · simp [process_one, hs, hd, hc, ht]
          · simp [process_one, hs, hd, hc, ht]

theorem process_one_sublist (o : Oracles) (e : Email) :
    List.Sublist (process_one o e).1 (fullEventSeq e) := by
  rcases hs : o.summarize e with err | s
  · have h1 : (process_one o e).1 = [.summarizeEmail e.id] := by
      simp [process_one, hs]
    rw [h1, fullEventSeq]
    exact List.sublist_append_left [Event.summarizeEmail e.id]
      [Event.detectSupport e.id, Event.categorizeTicket e.id,
       Event.createTicket e.id, Event.createCRMEntry e.id,
       Event.submitCRMEntry e.id, Event.markProcessed e.id]
  · rcases hd : o.detect e with err | b
    · have h1 : (process_one o e).1 =
          [.summarizeEmail e.id, .detectSupport e.id] := by
        simp [process_one, hs, hd]
      rw [h1, fullEventSeq]
      exact List.sublist_append_left
        [Event.summarizeEmail e.id, Event.detectSupport e.id] _
    · cases b
      · have h1 : (process_one o e).1 =
            [.summarizeEmail e.id, .detectSupport e.id] ++
              (process_tail o e s).1 := by
          simp [process_one, hs, hd]
        rw [h1, fullEventSeq]
        exact ((process_tail_sublist o e s).trans
          (List.sublist_append_right
            [Event.categorizeTicket e.id, Event.createTicket e.id]
            _)).append_left
          [Event.summarizeEmail e.id, Event.detectSupport e.id]
      · rcases hc : o.categorize e with err | td
        · have h1 : (process_one o e).1 =
              [.summarizeEmail e.id, .detectSupport e.id,
               .categorizeTicket e.id] := by
            simp [process_one, hs, hd, hc]
          rw [h1, fullEventSeq]
          exact List.sublist_append_left
            [Event.summarizeEmail e.id, Event.detectSupport e.id,
             Event.categorizeTicket e.id] _
        · rcases ht : o.create_ticket e td with err | u
          · have h1 : (process_one o e).1 =
                [.summarizeEmail e.id, .detectSupport e.id,
                 .categorizeTicket e.id, .createTicket e.id] := by
              simp [process_one, hs, hd, hc, ht]
            rw [h1, fullEventSeq]
            exact List.sublist_append_left
              [Event.summarizeEmail e.id, Event.detectSupport e.id,
               Event.categorizeTicket e.id, Event.createTicket e.id] _
          · have h1 : (process_one o e).1 =
                [.summarizeEmail e.id, .detectSupport e.id,
                 .categorizeTicket e.id, .createTicket e.id] ++
                  (process_tail o e s).1 := by
              simp [process_one, hs, hd, hc, ht]
            rw [h1, fullEventSeq]
            exact (process_tail_sublist o e s).append_left
              [Event.summarizeEmail e.id, Event.detectSupport e.id,
               Event.categorizeTicket e.id, Event.createTicket e.id]

theorem process_one_cat_mem (o : Oracles) (e : Email) :
    Event.categorizeTicket e.id ∈ (process_one o e).1 ↔
      (∃ s, o.summarize e = .ok s) ∧ o.detect e = .ok true := by
  rcases hs : o.summarize e with err | s
  · simp [process_one, hs]
  · rcases hd : o.detect e with err | b
    · simp [process_one, hs, hd]
    · cases b
      · have hn := (process_tail_no_ticket_events o e s).1
        simp [process_one, hs, hd, hn]
      · rcases hc : o.categorize e with err | td
        · simp [process_one, hs, hd, hc]
        · rcases ht : o.create_ticket e td with err | u
          · simp [process_one, hs, hd, hc, ht]
          · simp [process_one, hs, hd, hc, ht]

theorem process_one_ticket_mem (o : Oracles) (e : Email) :
    Event.createTicket e.id ∈ (process_one o e).1 ↔
      (∃ s, o.summarize e = .ok s) ∧ o.detect e = .ok true ∧
        ∃ td, o.categorize e = .ok td := by
  rcases hs : o.summarize e with err | s
  · simp [process_one, hs]
  · rcases hd : o.detect e with err | b
    · simp [process_one, hs, hd]
    · cases b
      · have hn := (process_tail_no_ticket_events o e s).2
        simp [process_one, hs, hd, hn]
      · rcases hc : o.categorize e with err | td
        · simp [process_one, hs, hd, hc]
        · rcases ht : o.create_ticket e td with err | u
          · simp [process_one, hs, hd, hc, ht]
          · simp [process_one, hs, hd, hc, ht]

theorem process_one_success_true (o : Oracles) (e : Email)
    (h : (process_one o e).2 = none) (hd : o.detect e = .ok true) :
    (process_one o e).1 = fullEventSeq e := by
  rcases hs : o.summarize e with err | s
  · simp [process_one, hs] at h
  · rcases hc : o.categorize e with err | td
    · simp [process_one, hs, hd, hc] at h
    · rcases ht : o.create_ticket e td with err | u
      · simp [process_one, hs, hd, hc, ht] at h
      · have h2 : (process_tail o e s).2 = none := by
          simpa [process_one, hs, hd, hc, ht] using h
        simp [process_one, hs, hd, hc, ht,
              process_tail_err_none o e s h2, fullEventSeq]

theorem process_one_success_false (o : Oracles) (e : Email)
    (h : (process_one o e).2 = none) (hd : o.detect e = .ok false) :
    (process_one o e).1 = nonSupportEventSeq e := by
  rcases hs : o.summarize e with err | s
  · simp [process_one, hs] at h
  · have h2 : (process_tail o e s).2 = none := by
      simpa [process_one, hs, hd] using h
    simp [process_one, hs, hd, process_tail_err_none o e s h2,
          nonSupportEventSeq]

/-- C6: for every fetched email, the batch loop performs its steps
sequentially in program order: the trace begins with summarization and is
a subsequence of the canonical step order (no reordering); ticket
categorization happens exactly when summarization succeeded and detection
answered true, and ticket submission additionally requires categorization
to have succeeded; when no step fails the trace is exactly the full
sequence (detection true) or the sequence without the ticket steps
(detection false); and the batch handles the emails one at a time, in the
order the email service returned them. -/
theorem c6_sequential_pipeline (o : Oracles) (e : Email)
    (emails : List Email) :
    process_email_batch o emails = emails.map (process_one o) ∧
    (process_one o e).1.head? = some (.summarizeEmail e.id) ∧
    List.Sublist (process_one o e).1 (fullEventSeq e) ∧
    (Event.categorizeTicket e.id ∈ (process_one o e).1 ↔
      (∃ s, o.summarize e = .ok s) ∧ o.detect e = .ok true) ∧
    (Event.createTicket e.id ∈ (process_one o e).1 ↔
      (∃ s, o.summarize e = .ok s) ∧ o.detect e = .ok true ∧
        ∃ td, o.categorize e = .ok td) ∧
    ((process_one o e).2 = none → o.detect e = .ok true →
      (process_one o e).1 = fullEventSeq e) ∧
    ((process_one o e).2 = none → o.detect e = .ok false →
      (process_one o e).1 = nonSupportEventSeq e) :=
  ⟨process_email_batch_eq_map o emails, process_one_head o e,
   process_one_sublist o e, process_one_cat_mem o e,
   process_one_ticket_mem o e,
   fun h hd => process_one_success_true o e h hd,
   fun h hd => process_one_success_false o e h hd⟩

theorem c6_sequential_pipeline_witness :
    process_email_batch happyOracles [sampleEmail] =
        ([sampleEmail] : List Email).map (process_one happyOracles) ∧
    (process_one happyOracles sampleEmail).1.head? =
        some (.summarizeEmail sampleEmail.id) ∧
    List.Sublist (process_one happyOracles sampleEmail).1
        (fullEventSeq sampleEmail) ∧
    (Event.categorizeTicket sampleEmail.id ∈
        (process_one happyOracles sampleEmail).1 ↔
      (∃ s, happyOracles.summarize sampleEmail = .ok s) ∧
        happyOracles.detect sampleEmail = .ok true) ∧
    (Event.createTicket sampleEmail.id ∈
        (process_one happyOracles sampleEmail).1 ↔
      (∃ s, happyOracles.summarize sampleEmail = .ok s) ∧
        happyOracles.detect sampleEmail = .ok true ∧
        ∃ td, happyOracles.categorize sampleEmail = .ok td) ∧
    ((process_one happyOracles sampleEmail).2 = none →
      happyOracles.detect sampleEmail = .ok true →
      (process_one happyOracles sampleEmail).1 = fullEventSeq sampleEmail) ∧
    ((process_one happyOracles sampleEmail).2 = none →
      happyOracles.detect sampleEmail = .ok false →
      (process_one happyOracles sampleEmail).1 =
        nonSupportEventSeq sampleEmail) :=
  c6_sequential_pipeline happyOracles sampleEmail [sampleEmail]
